import Mathlib

/-!
Verification of the COVID-19 mortality dashboard pipeline (src/code.py, with
src/covid.py a near-duplicate differing only in that its region chart and
region filter use the raw `Who_region` code instead of the pretty label).

The embedding models the pipeline as list transformations:
  * a raw CSV row (`RawRow`) and the loaded, enriched row (`Record`),
    with `load` performing `load_data`'s normalization: `Deaths.fillna(0)`,
    the derived `Date` (null for invalid month), `Agegroup_pretty` and
    `Who_region_pretty` lookups with pass-through for unknown codes;
  * `applyFilter` for the sequential subsetting at code.py lines 101-118;
  * the reducers `ts`, `heat`, map_data, region_deaths and the KPI values
    `total_deaths` (= `sumDeaths`) and `recentDeaths`.

Dates are represented by their month index `year*12 + (month-1)`, since every
derived date is a first-of-month timestamp and `pd.DateOffset(months=12)`
shifts exactly 12 such indices. `pd.to_datetime(..., errors="coerce")`
yields a null date exactly when the month is outside 1..12 (the pandas
timestamp range bound on extreme years is not modelled; no claim involves it).
pandas `groupby` drops rows whose grouping key is null (`dropna=True`
default), which `groupSum` mirrors by keying through `Option`.
pandas emits groups sorted by key value, and the scripts additionally sort
`ts` by date and region_deaths by descending deaths; none of the claims
below depend on the order of grouped output, so `groupSum` lists groups in
first-occurrence order.
-/

namespace Covid

/-- One raw CSV row. `Country`, `Who_region`, `Wb_income` may be blank
(pandas NaN), and `Deaths` may be absent; `Year`, `Month` are integers and
`Agegroup` a code string (the scripts crash at startup on a blank
`Agegroup`, since `sorted` cannot compare NaN with strings, so it is total
here). -/
structure RawRow where
  country : Option String
  who_region : Option String
  wb_income : Option String
  year : Int
  month : Int
  agegroup : String
  deaths : Option Int
deriving DecidableEq, Repr

/-- A loaded dataset row after `load_data`: deaths filled, derived date and
pretty labels attached. -/
structure Record where
  country : Option String
  who_region : Option String
  wb_income : Option String
  year : Int
  month : Int
  agegroup : String
  deaths : Int
  date : Option Int
  agegroup_pretty : String
  who_region_pretty : Option String
deriving DecidableEq, Repr

/-- The `age_map` lookup with `.fillna(df["Agegroup"])` pass-through. -/
def ageMap (a : String) : String :=
  if a = "0_4" then "0–4"
  else if a = "5_14" then "5–14"
  else if a = "15_64" then "15–64"
  else if a = "65+" then "65+"
  else a

/-- The `region_map` lookup with `.fillna(df["Who_region"])` pass-through. -/
def regionMap (a : String) : String :=
  if a = "AFR" then "African Region"
  else if a = "AMR" then "Region of the Americas"
  else if a = "EMR" then "Eastern Mediterranean Region"
  else if a = "EUR" then "European Region"
  else if a = "SEAR" then "South-East Asia Region"
  else if a = "WPR" then "Western Pacific Region"
  else a

/-- Month index of the derived first-of-month date; null when the month is
invalid (`pd.to_datetime(..., errors="coerce")`). -/
def dateOf (y m : Int) : Option Int :=
  if 1 ≤ m ∧ m ≤ 12 then some (y * 12 + (m - 1)) else none

/-- `load_data`'s per-row normalization and enrichment. -/
def loadRow (x : RawRow) : Record :=
  { country := x.country
    who_region := x.who_region
    wb_income := x.wb_income
    year := x.year
    month := x.month
    agegroup := x.agegroup
    deaths := x.deaths.getD 0
    date := dateOf x.year x.month
    agegroup_pretty := ageMap x.agegroup
    who_region_pretty := x.who_region.map regionMap }

/-- `load_data`: every raw row is normalized and retained (no row dropping). -/
def load (rs : List RawRow) : List Record :=
  rs.map loadRow

/-- The sidebar selection state: `region_selected`, `income_selected`,
`countries_selected`, `agegroups_selected`, `year_range`. -/
structure FilterSpec where
  region : String
  income : String
  countries : List String
  agegroups : List String
  yearLo : Int
  yearHi : Int
deriving DecidableEq, Repr

/-- The sequential subsetting at code.py lines 101-118: each predicate is
skipped at its sentinel (`"All regions"`, `"All income levels"`, and the
Python truthiness guards `if countries_selected:` / `if agegroups_selected:`
which skip on an empty selection); the inclusive year bound is always
applied. pandas `==` and `.isin` are false on a null cell, which the
`Option` matches mirror. -/
def applyFilter (df : List Record) (s : FilterSpec) : List Record :=
  let f1 := if s.region ≠ "All regions"
    then df.filter (fun r => decide (r.who_region_pretty = some s.region))
    else df
  let f2 := if s.income ≠ "All income levels"
    then f1.filter (fun r => decide (r.wb_income = some s.income))
    else f1
  let f3 := if s.countries ≠ []
    then f2.filter (fun r =>
      match r.country with
      | some c => decide (c ∈ s.countries)
      | none => false)
    else f2
  let f4 := if s.agegroups ≠ []
    then f3.filter (fun r => decide (r.agegroup_pretty ∈ s.agegroups))
    else f3
  f4.filter (fun r => decide (s.yearLo ≤ r.year) && decide (r.year ≤ s.yearHi))

/-- The conjunction of active predicates as the code implements them: every
predicate has an unrestricted sentinel, including the age-group one (empty
selection = skip). -/
def rowPred (s : FilterSpec) (r : Record) : Bool :=
  (decide (s.region = "All regions") || decide (r.who_region_pretty = some s.region)) &&
  (decide (s.income = "All income levels") || decide (r.wb_income = some s.income)) &&
  (decide (s.countries = []) ||
    (match r.country with
     | some c => decide (c ∈ s.countries)
     | none => false)) &&
  (decide (s.agegroups = []) || decide (r.agegroup_pretty ∈ s.agegroups)) &&
  (decide (s.yearLo ≤ r.year) && decide (r.year ≤ s.yearHi))

/-- The conjunction of active predicates as the spec describes them: region,
income and country predicates have "unless sentinel" escapes, but age-group
membership is always tested (so an empty age-group set matches nothing). -/
def specRowPred (s : FilterSpec) (r : Record) : Bool :=
  (decide (s.region = "All regions") || decide (r.who_region_pretty = some s.region)) &&
  (decide (s.income = "All income levels") || decide (r.wb_income = some s.income)) &&
  (decide (s.countries = []) ||
    (match r.country with
     | some c => decide (c ∈ s.countries)
     | none => false)) &&
  decide (r.agegroup_pretty ∈ s.agegroups) &&
  (decide (s.yearLo ≤ r.year) && decide (r.year ≤ s.yearHi))

/-- `filtered["Deaths"].sum()`. -/
def sumDeaths (v : List Record) : Int :=
  (v.map (fun r => r.deaths)).sum

/-- The distinct non-null grouping keys occurring in a view. -/
def groupKeys {κ : Type} [DecidableEq κ] (v : List Record) (key : Record → Option κ) :
    List κ :=
  (v.filterMap key).dedup

/-- `groupby(key)["Deaths"].sum()`: one (key, summed deaths) pair per distinct
non-null key; rows with a null key are dropped (pandas `dropna=True`). -/
def groupSum {κ : Type} [DecidableEq κ] (v : List Record) (key : Record → Option κ) :
    List (κ × Int) :=
  (groupKeys v key).map
    (fun k => (k, sumDeaths (v.filter (fun r => decide (key r = some k)))))

/-- Time Series reducer (code.py lines 165-170): group by (Date,
Agegroup_pretty) and sum deaths; a row with a null date has a null composite
key and is dropped by the groupby. -/
def ts (v : List Record) : List ((Int × String) × Int) :=
  groupSum v (fun r => r.date.map (fun d => (d, r.agegroup_pretty)))

/-- Year × Age heatmap reducer (code.py lines 230-234): group by (Year,
Agegroup_pretty), both always present. -/
def heat (v : List Record) : List ((Int × String) × Int) :=
  groupSum v (fun r => some (r.year, r.agegroup_pretty))

/-- Country Totals reducer (code.py lines 265-272): group by Country
(null keys dropped by groupby and by the explicit `dropna`), then exclude the
literal country "Unknown". -/
def map_data (v : List Record) : List (String × Int) :=
  (groupSum v (fun r => r.country)).filter (fun p => decide (p.1 ≠ "Unknown"))

/-- Region Totals reducer (code.py lines 307-312): group by
Who_region_pretty; a null region label is dropped by the groupby. -/
def region_deaths (v : List Record) : List (String × Int) :=
  groupSum v (fun r => r.who_region_pretty)

/-- `filtered["Date"].max()`: null dates are skipped; null iff no row has a
date. -/
def viewMaxDate (v : List Record) : Option Int :=
  (v.filterMap (fun r => r.date)).max?

/-- KPI `recent_deaths` (code.py lines 127-130): sum of deaths over rows
whose date is at least `max_date - DateOffset(months=12)`. When every date is
null, `max_date` is NaT and every comparison is false, so the sum is 0. -/
def recentDeaths (v : List Record) : Int :=
  match viewMaxDate v with
  | none => 0
  | some m =>
      sumDeaths (v.filter (fun r =>
        match r.date with
        | some d => decide (m - 12 ≤ d)
        | none => false))

/-- `agegroups_all`: the distinct age-group labels of the full dataset (the
UI's multiselect options; sorting not modelled, membership is what matters). -/
def allAgeLabels (df : List Record) : List String :=
  (df.map (fun r => r.agegroup_pretty)).dedup

/-- `year_min = int(df["Year"].min())`, the slider's lower bound. -/
def minYear (df : List Record) : Int :=
  ((df.map (fun r => r.year)).min?).getD 0

/-- `year_max = int(df["Year"].max())`, the slider's upper bound. -/
def maxYear (df : List Record) : Int :=
  ((df.map (fun r => r.year)).max?).getD 0

/-- The spec's "maximally unrestricted" FilterSpec: every control at its
sentinel — all regions, all income levels, no country restriction, all
age-group labels selected, the full year range of the dataset. -/
def maximallyUnrestricted (df : List Record) (s : FilterSpec) : Prop :=
  s.region = "All regions" ∧
  s.income = "All income levels" ∧
  s.countries = [] ∧
  (∀ l ∈ allAgeLabels df, l ∈ s.agegroups) ∧
  (∀ l ∈ s.agegroups, l ∈ allAgeLabels df) ∧
  s.yearLo = minYear df ∧ s.yearHi = maxYear df

instance (df : List Record) (s : FilterSpec) :
    Decidable (maximallyUnrestricted df s) := by
  unfold maximallyUnrestricted; infer_instance

/-- What the script renders after the filter step: either the empty-result
guidance message with `st.stop()` (code.py lines 120-122), or the KPI values
and the four reducer outputs. -/
inductive DashboardResult where
  | emptyMessage : DashboardResult
  | rendered (totalDeaths recent : Int)
      (series : List ((Int × String) × Int))
      (heatmap : List ((Int × String) × Int))
      (countries : List (String × Int))
      (regions : List (String × Int)) : DashboardResult
deriving DecidableEq, Repr

/-- The script's control flow from the filter step on: check emptiness first,
stop with the message if empty, otherwise run every reducer on the filtered
view. -/
def dashboard (df : List Record) (s : FilterSpec) : DashboardResult :=
  let v := applyFilter df s
  if v = [] then DashboardResult.emptyMessage
  else DashboardResult.rendered (sumDeaths v) (recentDeaths v)
    (ts v) (heat v) (map_data v) (region_deaths v)

/-! ### Helper lemmas -/

@[simp] lemma sumDeaths_nil : sumDeaths [] = 0 := rfl

@[simp] lemma sumDeaths_cons (r : Record) (v : List Record) :
    sumDeaths (r :: v) = r.deaths + sumDeaths v := by
  simp [sumDeaths]

lemma sumDeaths_filter_add (v : List Record) (p : Record → Bool) :
    sumDeaths (v.filter p) + sumDeaths (v.filter (fun r => !(p r))) = sumDeaths v := by
  induction v with
  | nil => simp
  | cons r t ih =>
    by_cases h : p r = true <;> simp [List.filter_cons, h] <;> omega

lemma sumDeaths_nonneg (v : List Record) (h : ∀ r ∈ v, 0 ≤ r.deaths) :
    0 ≤ sumDeaths v := by
  induction v with
  | nil => simp
  | cons r t ih =>
    have h0 := h r (by simp)
    have ht := ih (fun x hx => h x (by simp [hx]))
    simp; omega

lemma sumDeaths_filter_le (v : List Record) (p : Record → Bool)
    (h : ∀ r ∈ v, 0 ≤ r.deaths) :
    sumDeaths (v.filter p) ≤ sumDeaths v := by
  have hadd := sumDeaths_filter_add v p
  have hnn : 0 ≤ sumDeaths (v.filter (fun r => !(p r))) :=
    sumDeaths_nonneg _ (fun r hr => h r (List.mem_of_mem_filter hr))
  omega

/-- Summing per-key death totals over a duplicate-free list of keys covering
every row recovers the total sum: the groups partition the view. -/
lemma sum_groups_of_cover {κ : Type} [DecidableEq κ] (key : Record → Option κ) :
    ∀ (ks : List κ) (v : List Record), ks.Nodup →
      (∀ r ∈ v, ∃ k ∈ ks, key r = some k) →
      (ks.map (fun k => sumDeaths (v.filter (fun r => decide (key r = some k))))).sum
        = sumDeaths v := by
  intro ks
  induction ks with
  | nil =>
    intro v _ hcov
    have hv : v = [] := by
      cases v with
      | nil => rfl
      | cons r t => exact absurd (hcov r (by simp)) (by simp)
    subst hv; simp
  | cons k ks ih =>
    intro v hnd hcov
    have hknotmem : k ∉ ks := (List.nodup_cons.mp hnd).1
    have hterm : ∀ k2 ∈ ks,
        sumDeaths (v.filter (fun r => decide (key r = some k2)))
          = sumDeaths ((v.filter (fun r => !(decide (key r = some k)))).filter
              (fun r => decide (key r = some k2))) := by
      intro k2 hk2
      congr 1
      rw [List.filter_filter]
      apply List.filter_congr
      intro r _
      by_cases h : key r = some k2
      · have hk2k : ¬ k2 = k := fun hc => hknotmem (hc ▸ hk2)
        simp [h, hk2k]
      · simp [h]
    have htail :
        (ks.map (fun k2 => sumDeaths (v.filter (fun r => decide (key r = some k2))))).sum
          = sumDeaths (v.filter (fun r => !(decide (key r = some k)))) := by
      rw [List.map_congr_left hterm]
      apply ih _ (List.nodup_cons.mp hnd).2
      intro r hr
      have hrv := List.mem_filter.mp hr
      obtain ⟨k2, hk2mem, hk2⟩ := hcov r hrv.1
      refine ⟨k2, ?_, hk2⟩
      rcases List.mem_cons.mp hk2mem with h | h
      · exfalso
        have : ¬ key r = some k := by simpa using hrv.2
        exact this (h ▸ hk2)
      · exact h
    simp only [List.map_cons, List.sum_cons, htail]
    exact sumDeaths_filter_add v _

/-- When the grouping key is non-null on every row, the grouped sums add up
to the plain total. -/
lemma groupSum_total {κ : Type} [DecidableEq κ] (v : List Record)
    (key : Record → Option κ) (h : ∀ r ∈ v, (key r).isSome) :
    ((groupSum v key).map (fun p => p.2)).sum = sumDeaths v := by
  unfold groupSum
  rw [List.map_map]
  apply sum_groups_of_cover
  · exact List.nodup_dedup _
  · intro r hr
    obtain ⟨k, hk⟩ := Option.isSome_iff_exists.mp (h r hr)
    exact ⟨k, List.mem_dedup.mpr (List.mem_filterMap.mpr ⟨r, hr, hk⟩), hk⟩

lemma if_filter_eq (c : Prop) [Decidable c] (l : List Record) (p : Record → Bool) :
    (if c then l.filter p else l) = l.filter (fun r => !(decide c) || p r) := by
  by_cases h : c <;> simp [h]

/-- The sequential subsetting of `applyFilter` equals one pass of the
conjunctive predicate `rowPred`; in particular input row order is preserved
and the output is exactly the satisfying subset. -/
lemma applyFilter_eq_filter (df : List Record) (s : FilterSpec) :
    applyFilter df s = df.filter (rowPred s) := by
  unfold applyFilter
  simp only [if_filter_eq]
  simp only [List.filter_filter]
  apply List.filter_congr
  intro r _
  unfold rowPred
  simp [decide_not, Bool.not_not, Bool.and_assoc, Bool.and_comm, Bool.and_left_comm]

lemma minYear_le_of_mem (df : List Record) (r : Record) (hr : r ∈ df) :
    minYear df ≤ r.year := by
  have hmem : r.year ∈ df.map (fun x => x.year) := List.mem_map.mpr ⟨r, hr, rfl⟩
  obtain ⟨m, hm⟩ := Option.isSome_iff_exists.mp (List.isSome_min?_of_mem hmem)
  have hle := (List.le_min?_iff (fun a b c => le_min_iff) hm (x := m)).mp le_rfl
  unfold minYear
  rw [hm]
  simpa using hle r.year hmem

lemma le_maxYear_of_mem (df : List Record) (r : Record) (hr : r ∈ df) :
    r.year ≤ maxYear df := by
  have hmem : r.year ∈ df.map (fun x => x.year) := List.mem_map.mpr ⟨r, hr, rfl⟩
  obtain ⟨m, hm⟩ := Option.isSome_iff_exists.mp (List.isSome_max?_of_mem hmem)
  have hle := (List.max?_le_iff (fun a b c => max_le_iff) hm (x := m)).mp le_rfl
  unfold maxYear
  rw [hm]
  simpa using hle r.year hmem

/-! ### Concrete sample data for counterexamples and witnesses -/

/-- A clean row: United States, AMR, High income, January 2021, 65+, 100
deaths. -/
def x1 : RawRow :=
  { country := some "US", who_region := some "AMR", wb_income := some "High"
    year := 2021, month := 1, agegroup := "65+", deaths := some 100 }

/-- A row with the invalid month 13 (its derived date is null). -/
def xBadMonth : RawRow :=
  { country := some "US", who_region := some "AMR", wb_income := some "High"
    year := 2021, month := 13, agegroup := "65+", deaths := some 5 }

/-- A row with a blank WHO region (its region label is null). -/
def xNoRegion : RawRow :=
  { country := some "FR", who_region := none, wb_income := some "High"
    year := 2021, month := 1, agegroup := "65+", deaths := some 7 }

def df1 : List Record := load [x1]

def rsBad : List RawRow := [x1, xBadMonth]

def df2 : List Record := load rsBad

def df3 : List Record := load [x1, xNoRegion]

/-- All controls at their sentinel for `df1`/`df2`/`df3`: all regions, all
income levels, no countries, every age-group label selected, full year
range. -/
def specAll : FilterSpec :=
  { region := "All regions", income := "All income levels", countries := []
    agegroups := ["65+"], yearLo := 2021, yearHi := 2021 }

/-- Like `specAll` but with an empty age-group selection. -/
def specEmptyAge : FilterSpec :=
  { region := "All regions", income := "All income levels", countries := []
    agegroups := [], yearLo := 2021, yearHi := 2021 }

/-- A restricted spec: region fixed to the Americas, the rest at sentinel. -/
def specRegionOnly : FilterSpec :=
  { region := "Region of the Americas", income := "All income levels"
    countries := [], agegroups := ["65+"], yearLo := 2021, yearHi := 2021 }

/-! ### Claims -/

/-- C1 (counterexample): the claim says a FilterSpec with an empty age_groups
set yields an empty FilteredView; but the code guards the age filter with
`if agegroups_selected:`, which skips it on an empty selection, so the
one-row dataset `df1` filtered with empty age groups (all other predicates
at sentinel) is non-empty. -/
theorem C1_counterexample :
    specEmptyAge.agegroups = [] ∧ applyFilter df1 specEmptyAge ≠ [] := by
  constructor
  · rfl
  · decide

/-- C1 (amended): an empty age_groups set means no restriction — the filter
yields the same view as selecting every age-group label of the dataset, not
an empty view. -/
theorem C1_empty_agegroups_unrestricted (df : List Record) (s : FilterSpec)
    (h : s.agegroups = []) :
    applyFilter df s = applyFilter df { s with agegroups := allAgeLabels df } := by
  rw [applyFilter_eq_filter, applyFilter_eq_filter]
  apply List.filter_congr
  intro r hr
  have hmem : r.agegroup_pretty ∈ allAgeLabels df :=
    List.mem_dedup.mpr (List.mem_map.mpr ⟨r, hr, rfl⟩)
  unfold rowPred
  simp [h, hmem]

theorem C1_empty_agegroups_unrestricted_witness :
    applyFilter df1 specEmptyAge
      = applyFilter df1 { specEmptyAge with agegroups := allAgeLabels df1 } :=
  C1_empty_agegroups_unrestricted df1 specEmptyAge rfl

/-- C2 (counterexample): on `df2` (one valid row with 100 deaths, one
month-13 row with 5 deaths and hence a null date) with every control at its
sentinel, the FilteredView is non-empty but the Time Series grouped sums
total 100 while `total_deaths` is 105: the groupby drops the null-date row,
so the claimed equality fails exactly in the "unset/null date" case the
claim includes. -/
theorem C2_counterexample :
    applyFilter df2 specAll ≠ [] ∧
    ((ts (applyFilter df2 specAll)).map (fun p => p.2)).sum
      ≠ sumDeaths (applyFilter df2 specAll) := by
  decide

/-- C2 (amended): for every FilterSpec with a non-empty FilteredView in
which every row has a present (non-null) date, the Time Series grouped
(date, age_group_label) death sums total exactly `total_deaths`. -/
theorem C2_ts_total (df : List Record) (s : FilterSpec)
    (_hne : applyFilter df s ≠ [])
    (hdate : ∀ r ∈ applyFilter df s, (r.date).isSome) :
    ((ts (applyFilter df s)).map (fun p => p.2)).sum
      = sumDeaths (applyFilter df s) := by
  unfold ts
  apply groupSum_total
  intro r hr
  have hd := hdate r hr
  cases hv : r.date with
  | none => rw [hv] at hd; simp at hd
  | some d => simp [hv]

theorem C2_ts_total_witness :
    ((ts (applyFilter df1 specAll)).map (fun p => p.2)).sum
      = sumDeaths (applyFilter df1 specAll) :=
  C2_ts_total df1 specAll (by decide) (by decide)

/-- C3 (counterexample): on `df3` (one valid row with 100 deaths, one row
with a blank WHO region and 7 deaths) with every control at its sentinel,
the FilteredView is non-empty but the Region Totals sums total 100 while
`total_deaths` is 107: the groupby drops the null-region row, so the claimed
equality fails exactly in the "missing/null region label" case the claim
includes. -/
theorem C3_counterexample :
    applyFilter df3 specAll ≠ [] ∧
    ((region_deaths (applyFilter df3 specAll)).map (fun p => p.2)).sum
      ≠ sumDeaths (applyFilter df3 specAll) := by
  decide

/-- C3 (amended): for every FilterSpec with a non-empty FilteredView in
which every row has a present (non-null) region label, the Region Totals
per-region death sums total exactly `total_deaths`. -/
theorem C3_region_total (df : List Record) (s : FilterSpec)
    (_hne : applyFilter df s ≠ [])
    (hreg : ∀ r ∈ applyFilter df s, (r.who_region_pretty).isSome) :
    ((region_deaths (applyFilter df s)).map (fun p => p.2)).sum
      = sumDeaths (applyFilter df s) := by
  unfold region_deaths
  exact groupSum_total _ _ hreg

theorem C3_region_total_witness :
    ((region_deaths (applyFilter df1 specAll)).map (fun p => p.2)).sum
      = sumDeaths (applyFilter df1 specAll) :=
  C3_region_total df1 specAll (by decide) (by decide)

/-- C4 (counterexample): the claim's "equality iff maximally unrestricted"
fails in the "only if" direction: restricting the region to the Americas on
the one-row dataset `df1` (whose only row is in the Americas) keeps the sum
of deaths equal to the full dataset's, yet the spec is not maximally
unrestricted. -/
theorem C4_counterexample :
    sumDeaths (applyFilter df1 specRegionOnly) = sumDeaths df1 ∧
    ¬ maximallyUnrestricted df1 specRegionOnly := by
  decide

/-- C4 (amended): for a dataset with non-negative deaths, the filtered sum
of deaths never exceeds the dataset's, and a maximally unrestricted
FilterSpec attains equality (the converse implication is dropped: a
restricted spec can also attain equality). -/
theorem C4_filtered_le_total (df : List Record) (s : FilterSpec)
    (hnn : ∀ r ∈ df, 0 ≤ r.deaths) :
    sumDeaths (applyFilter df s) ≤ sumDeaths df ∧
    (maximallyUnrestricted df s → sumDeaths (applyFilter df s) = sumDeaths df) := by
  constructor
  · rw [applyFilter_eq_filter]
    exact sumDeaths_filter_le df _ hnn
  · intro hmax
    obtain ⟨hregion, hincome, hcty, hage1, _hage2, hlo, hhi⟩ := hmax
    rw [applyFilter_eq_filter]
    congr 1
    apply List.filter_eq_self.mpr
    intro r hr
    have hmem : r.agegroup_pretty ∈ allAgeLabels df :=
      List.mem_dedup.mpr (List.mem_map.mpr ⟨r, hr, rfl⟩)
    unfold rowPred
    simp only [Bool.and_eq_true, Bool.or_eq_true, decide_eq_true_eq]
    refine ⟨⟨⟨⟨Or.inl hregion, Or.inl hincome⟩, Or.inl hcty⟩,
      Or.inr (hage1 _ hmem)⟩, ?_, ?_⟩
    · rw [hlo]; exact minYear_le_of_mem df r hr
    · rw [hhi]; exact le_maxYear_of_mem df r hr

theorem C4_filtered_le_total_witness :
    sumDeaths (applyFilter df1 specAll) ≤ sumDeaths df1 ∧
    (maximallyUnrestricted df1 specAll →
      sumDeaths (applyFilter df1 specAll) = sumDeaths df1) :=
  C4_filtered_le_total df1 specAll (by decide)

/-- C5 (counterexample): the claim's conjunction tests age-group membership
unconditionally, so with an empty age_groups set it would keep no row; but
the code skips the age predicate on an empty selection, so on `df1` the
filter output differs from the claimed characterization. -/
theorem C5_counterexample :
    applyFilter df1 specEmptyAge
      ≠ df1.filter (fun r => specRowPred specEmptyAge r) := by
  decide

/-- C5 (amended): the filter output is exactly the subset of input rows
satisfying the conjunction of active predicates, in input order — where the
age-group membership predicate, like the country one, is skipped when its
selection set is empty. -/
theorem C5_filter_characterization (df : List Record) (s : FilterSpec) :
    applyFilter df s = df.filter (fun r => rowPred s r) :=
  applyFilter_eq_filter df s

/-- C6: Country Totals contains no row for a null country (its grouping
drops null keys, so every output key is the country of some filtered row)
and no row for the literal country "Unknown". -/
theorem C6_no_unknown_country (df : List Record) (s : FilterSpec)
    (p : String × Int) (hp : p ∈ map_data (applyFilter df s)) :
    p.1 ≠ "Unknown" ∧ ∃ r ∈ applyFilter df s, r.country = some p.1 := by
  unfold map_data groupSum at hp
  have h2 := List.mem_filter.mp hp
  constructor
  · simpa using h2.2
  · have hkey : p.1 ∈ groupKeys (applyFilter df s) (fun r => r.country) := by
      obtain ⟨k, hk, hpk⟩ := List.mem_map.mp h2.1
      rw [← hpk]
      exact hk
    obtain ⟨r, hr, hc⟩ := List.mem_filterMap.mp (List.mem_dedup.mp hkey)
    exact ⟨r, hr, hc⟩

theorem C6_no_unknown_country_witness :
    ("US" : String) ≠ "Unknown" ∧
    ∃ r ∈ applyFilter df1 specAll, r.country = some "US" :=
  C6_no_unknown_country df1 specAll ("US", 100) (by decide)

/-- C7: for a non-empty FilteredView whose maximum present date is `m`,
`recent_deaths` is the sum of deaths over exactly those filtered rows whose
date is present and at least `m` minus 12 months; the window is anchored to
the view's own maximum date, so it moves with the filter. -/
theorem C7_recent_window (df : List Record) (s : FilterSpec) (m : Int)
    (_hne : applyFilter df s ≠ [])
    (hm : viewMaxDate (applyFilter df s) = some m) :
    recentDeaths (applyFilter df s)
      = sumDeaths ((applyFilter df s).filter
          (fun r => r.date.any (fun d => decide (m - 12 ≤ d)))) := by
  unfold recentDeaths
  rw [hm]
  dsimp only
  congr 1
  apply List.filter_congr
  intro r _
  cases hv : r.date with
  | none => simp [hv]
  | some d => simp [hv]

theorem C7_recent_window_witness :
    recentDeaths (applyFilter df1 specAll)
      = sumDeaths ((applyFilter df1 specAll).filter
          (fun r => r.date.any (fun d => decide (24252 - 12 ≤ d)))) :=
  C7_recent_window df1 specAll 24252 (by decide) (by decide)

/-- C8: a source row with an invalid month (such as 13) loads with a null
derived date, is retained rather than dropped (loading is a per-row map),
and its deaths still count in aggregates keyed by year/age group (the
heatmap's grouped sums always total the full filtered sum, null dates
notwithstanding) and by country (its country's Country Totals entry sums
over all its rows). -/
theorem C8_invalid_month_retained (rs : List RawRow) (x : RawRow)
    (hx : x ∈ rs) (hbad : x.month < 1 ∨ 12 < x.month) :
    (loadRow x).date = none ∧
    (load rs).length = rs.length ∧
    loadRow x ∈ load rs ∧
    ((heat (load rs)).map (fun p => p.2)).sum = sumDeaths (load rs) ∧
    (∀ c, x.country = some c → c ≠ "Unknown" →
      (c, sumDeaths ((load rs).filter (fun r => decide (r.country = some c))))
        ∈ map_data (load rs)) := by
  refine ⟨?_, ?_, ?_, ?_, ?_⟩
  · unfold loadRow dateOf
    simp only []
    rw [if_neg]
    omega
  · unfold load
    exact List.length_map _ _
  · exact List.mem_map.mpr ⟨x, hx, rfl⟩
  · unfold heat
    apply groupSum_total
    intro r _
    simp
  · intro c hc hcU
    have hmemload : loadRow x ∈ load rs := List.mem_map.mpr ⟨x, hx, rfl⟩
    have hckey : c ∈ groupKeys (load rs) (fun r => r.country) := by
      apply List.mem_dedup.mpr
      apply List.mem_filterMap.mpr
      exact ⟨loadRow x, hmemload, by simp [loadRow, hc]⟩
    unfold map_data
    apply List.mem_filter.mpr
    constructor
    · unfold groupSum
      exact List.mem_map.mpr ⟨c, hckey, rfl⟩
    · simpa using hcU

theorem C8_invalid_month_retained_witness :
    (loadRow xBadMonth).date = none ∧
    ("US", sumDeaths ((load rsBad).filter (fun r => decide (r.country = some "US"))))
      ∈ map_data (load rsBad) :=
  ⟨(C8_invalid_month_retained rsBad xBadMonth (by decide) (by decide)).1,
   (C8_invalid_month_retained rsBad xBadMonth (by decide) (by decide)).2.2.2.2
     "US" rfl (by decide)⟩

/-- C9: the filter is a total pure function (an empty result is a value,
not an exception), and the script renders the empty-result guidance message
— invoking no reducer — exactly when the FilteredView is empty. -/
theorem C9_empty_signaled (df : List Record) (s : FilterSpec) :
    dashboard df s = DashboardResult.emptyMessage ↔ applyFilter df s = [] := by
  unfold dashboard
  by_cases h : applyFilter df s = [] <;> simp [h]

/-- C10: on a non-empty FilteredView with non-negative deaths,
`recent_deaths` (a sum over a subset of the filtered rows) is at most
`total_deaths`. -/
theorem C10_recent_le_total (df : List Record) (s : FilterSpec)
    (_hne : applyFilter df s ≠ [])
    (hnn : ∀ r ∈ applyFilter df s, 0 ≤ r.deaths) :
    recentDeaths (applyFilter df s) ≤ sumDeaths (applyFilter df s) := by
  unfold recentDeaths
  cases hv : viewMaxDate (applyFilter df s) with
  | none => exact sumDeaths_nonneg _ hnn
  | some m => exact sumDeaths_filter_le _ _ hnn

theorem C10_recent_le_total_witness :
    recentDeaths (applyFilter df1 specAll) ≤ sumDeaths (applyFilter df1 specAll) :=
  C10_recent_le_total df1 specAll (by decide) (by decide)

end Covid
